import Mathlib

/-!
Verification of the ispee network telemetry collector against its design
specification, via a shallow embedding of the Python sources in Lean.

Conventions used throughout this development:

* Wall-clock instants and durations (Python floats from `time.perf_counter`)
  are modelled as exact rationals `ℚ`; the claims under study are about the
  arithmetic relationships between times, not about floating-point rounding.
* Machine integers carried in packet fields are modelled as `ℕ` with explicit
  `% 2 ^ 32` where the source reduces modulo `2**32`.
* Python exceptions are modelled as explicit `Except`/`Option` results, and
  a `raise` is a returned error value.
* Network and socket effects are modelled as explicit inputs (the bytes or
  parsed replies that `recv` produced, the HTTP responses a server returned)
  and outputs (lists of side-effect events such as `settimeout` calls or
  Prometheus gauge updates).
-/

/-! ## SocketTimeoutPool (prober/probe.py)

`SocketTimeoutPool` holds the remaining shared timeout, `seconds_left`.
Its `limit` context manager:
  1. raises `ProbeTimeout` when `seconds_left <= 0`, before touching the socket;
  2. otherwise calls `sock.settimeout(seconds_left)` and runs the wrapped
     single blocking socket operation;
  3. translates a `TimeoutError` escaping the body into `ProbeTimeout`;
  4. after the body returns normally, subtracts the measured wall-clock
     duration of the body from `seconds_left` (the subtraction statement is
     written after the `try` block and is not in a `finally`, so it does not
     execute when the body raises).

The context body is modelled by the wall-clock `duration` it consumed
together with its `ScopeOutcome`: it either returned normally, raised a
`TimeoutError` (socket timeout), or raised some other exception.
-/

structure SocketTimeoutPool where
  seconds_left : ℚ
deriving DecidableEq

/-- Outcome of the single blocking socket operation inside a `limit` scope. -/
inductive ScopeOutcome where
  | ok
  | timeoutError
  | otherError
deriving DecidableEq

/-- Result of running a `limit` scope: either the scope completed, raised
`ProbeTimeout` (either at entry with the budget exhausted, or translated from
a `TimeoutError`), or propagated some other exception. -/
inductive LimitResult where
  | completed
  | probeTimeout
  | propagated
deriving DecidableEq

/-- Observable socket effects of a `limit` scope, in order. -/
inductive SocketEvent where
  | settimeout (seconds : ℚ)
  | socketOp
deriving DecidableEq

/-- Model of `SocketTimeoutPool.limit`: returns the pool after the scope, the
control-flow result, and the socket effects that occurred. -/
def SocketTimeoutPool.limit (pool : SocketTimeoutPool) (duration : ℚ)
    (outcome : ScopeOutcome) : SocketTimeoutPool × LimitResult × List SocketEvent :=
  if pool.seconds_left ≤ 0 then
    (pool, LimitResult.probeTimeout, [])
  else
    match outcome with
    | ScopeOutcome.ok =>
        (⟨pool.seconds_left - duration⟩, LimitResult.completed,
          [SocketEvent.settimeout pool.seconds_left, SocketEvent.socketOp])
    | ScopeOutcome.timeoutError =>
        (pool, LimitResult.probeTimeout,
          [SocketEvent.settimeout pool.seconds_left, SocketEvent.socketOp])
    | ScopeOutcome.otherError =>
        (pool, LimitResult.propagated,
          [SocketEvent.settimeout pool.seconds_left, SocketEvent.socketOp])

/-- Running a sequence of `limit` scopes all of which complete normally,
with the given measured durations. -/
def runScopes (pool : SocketTimeoutPool) (durations : List ℚ) : SocketTimeoutPool :=
  durations.foldl (fun p t => (p.limit t ScopeOutcome.ok).1) pool

/-! ## ICMP probe receive loop (prober/probe.py, `icmp_ping_probe`) -/

def IPPROTO_ICMP : ℕ := 1

def IPPROTO_TCP : ℕ := 6

/-- One packet seen by `sock.recv` in the ICMP receive loop, as decoded by
scapy: the IP protocol number, the ICMP header fields, and the echo payload.
The payload of a matching echo reply carries the 8-byte big-endian float
timestamp the probe embedded at send time; it is modelled directly as the
decoded timestamp. -/
structure ICMPReply where
  proto : ℕ
  type : ℕ
  code : ℕ
  id : ℕ
  seq : ℕ
  payload : ℚ
deriving DecidableEq

/-- What one iteration of the ICMP receive loop does with a received packet. -/
inductive ICMPStep where
  | discard
  | success (duration : ℚ)
  | icmpError (icmpType code : ℕ)
deriving DecidableEq

/-- Model of the body of the `while True` loop in `icmp_ping_probe`, given the
request's `identifier` and `sequence_number`, the receive instant
`dgram_recv_time`, and the decoded packet. -/
def icmpProcessReply (identifier sequence_number : ℕ) (dgram_recv_time : ℚ)
    (r : ICMPReply) : ICMPStep :=
  if r.proto ≠ IPPROTO_ICMP then
    ICMPStep.discard
  else if r.id ≠ identifier ∨ r.seq ≠ sequence_number then
    ICMPStep.discard
  else if r.type = 0 ∧ r.code = 0 then
    ICMPStep.success (dgram_recv_time - r.payload)
  else
    ICMPStep.icmpError r.type r.code

/-- Result of running the ICMP receive loop over finitely many received
packets; `timeout` stands for the loop still waiting when the packets run out
(in the source, the next `recv` under the budget eventually raises
`ProbeTimeout`). -/
inductive ICMPLoopResult where
  | success (duration : ℚ)
  | icmpError (icmpType code : ℕ)
  | timeout
deriving DecidableEq

/-- The ICMP receive loop over a finite trace of (receive time, packet)
pairs. -/
def icmpRecvLoop (identifier sequence_number : ℕ) :
    List (ℚ × ICMPReply) → ICMPLoopResult
  | [] => ICMPLoopResult.timeout
  | (t, r) :: rest =>
    match icmpProcessReply identifier sequence_number t r with
    | ICMPStep.discard => icmpRecvLoop identifier sequence_number rest
    | ICMPStep.success d => ICMPLoopResult.success d
    | ICMPStep.icmpError ty c => ICMPLoopResult.icmpError ty c

/-! ## TCP SYN/SYN-ACK probe receive loop (prober/probe.py, `tcp_syn_ack_probe`) -/

/-- One packet seen in the TCP receive loop, as decoded by scapy: IP protocol
number and source address, and the TCP sequence/acknowledgment numbers and
flags (scapy renders flags as a string, `"SA"` for SYN+ACK). -/
structure TCPReply where
  proto : ℕ
  src : String
  seq : ℕ
  ack : ℕ
  flags : String
deriving DecidableEq

/-- What one iteration of the TCP receive loop does with a received packet. -/
inductive TCPStep where
  | discard
  | success (duration : ℚ)
  | tcpError (msg : String)
deriving DecidableEq

/-- Model of the body of the `while True` loop in `tcp_syn_ack_probe`.
Note the source's discard condition is
`rx_dgram.seq != exp_seq and rx_dgram.ack != exp_ack` (a conjunction), with
`exp_seq = acknowledgment_number` and
`exp_ack = (sequence_number + 1) % (2**32)`. -/
def tcpProcessReply (host : String) (sequence_number acknowledgment_number : ℕ)
    (tx_time rx_time : ℚ) (r : TCPReply) : TCPStep :=
  if r.proto ≠ IPPROTO_TCP then
    TCPStep.discard
  else if r.src ≠ host then
    TCPStep.discard
  else
    let exp_seq := acknowledgment_number
    let exp_ack := (sequence_number + 1) % 2 ^ 32
    if r.seq ≠ exp_seq ∧ r.ack ≠ exp_ack then
      TCPStep.discard
    else if r.flags = "SA" then
      TCPStep.success (rx_time - tx_time)
    else
      TCPStep.tcpError
        ("host did not respond with correct flags (expected: SYN-ACK, actual: "
          ++ r.flags ++ ")")

/-! ## Modem response parser (src/ispee/s33.py)

The modem reports channel records separated by `"|+|"`, with fields inside a
record separated by `"^"` and a trailing marker field per record.
`DownstreamChannel.parse_response` is a generator that unpacks each record
into exactly 10 fields (raising `ValueError` otherwise) and converts the
numeric columns with `int()`/`float()` (raising `ValueError` on non-numeric
text).  Its only caller, `S33Scraper.get_channel_info`, forces the generator
with `list(...)`, so a failure anywhere yields no list at all; the model
below gives those forced-`list` semantics directly, returning `Option` with
`none` standing for a raised `ValueError`.
-/

/-- Leftmost-match string splitting on a non-empty separator, over character
lists, with fuel for structural termination.  The fuel is always initialised
to the length of the input, which makes the `0, s` fallback unreachable. -/
def splitOnListAux (sep : List Char) : ℕ → List Char → List (List Char)
  | _, [] => [[]]
  | 0, s => [s]
  | fuel + 1, c :: rest =>
    if sep.isPrefixOf (c :: rest) then
      [] :: splitOnListAux sep fuel (List.drop (sep.length - 1) rest)
    else
      match splitOnListAux sep fuel rest with
      | [] => [[c]]
      | group :: groups => (c :: group) :: groups

/-- Model of Python `s.split(sep)` for a non-empty separator. -/
def pySplit (s sep : String) : List String :=
  (splitOnListAux sep.toList s.toList.length s.toList).map (fun cs => String.mk cs)

/-- Value of a list of decimal digit characters. -/
def digitsVal (cs : List Char) : ℕ :=
  cs.foldl (fun acc c => 10 * acc + (c.toNat - Char.toNat '0')) 0

/-- True when `cs` is a non-empty run of decimal digits. -/
def allDigits (cs : List Char) : Bool :=
  !cs.isEmpty && cs.all Char.isDigit

/-- Model of Python `int(s)` on the plain decimal literals the modem wire
format carries: an optional sign followed by digits.  (Surrounding
whitespace, underscores and non-decimal bases accepted by CPython are not
produced by this format and are not modelled.) -/
def pyInt (s : String) : Option ℤ :=
  match s.toList with
  | '-' :: rest => if allDigits rest then some (-(digitsVal rest : ℤ)) else Option.none
  | '+' :: rest => if allDigits rest then some ((digitsVal rest : ℤ)) else Option.none
  | cs => if allDigits cs then some ((digitsVal cs : ℤ)) else Option.none

/-- The value of an unsigned decimal literal with integer part `ip` and
fractional part `fp` (either possibly empty, but not both). -/
def decimalVal (ip fp : List Char) : ℚ :=
  ((digitsVal ip * 10 ^ fp.length + digitsVal fp : ℕ) : ℚ) / ((10 : ℚ) ^ fp.length)

/-- Unsigned part of `pyFloat`: digits with at most one decimal point and at
least one digit overall. -/
def pyFloatCore (cs : List Char) : Option ℚ :=
  match splitOnListAux ['.'] cs.length cs with
  | [ip] => if allDigits ip then some (decimalVal ip []) else Option.none
  | [ip, fp] =>
    if ip.all Char.isDigit && fp.all Char.isDigit && (!ip.isEmpty || !fp.isEmpty) then
      some (decimalVal ip fp)
    else Option.none
  | _ => Option.none

/-- Model of Python `float(s)` on the plain decimal literals the modem wire
format carries (exponents, `inf`/`nan` and whitespace are not produced by
this format and are not modelled). -/
def pyFloat (s : String) : Option ℚ :=
  match s.toList with
  | '-' :: rest => (pyFloatCore rest).map (fun q => -q)
  | '+' :: rest => pyFloatCore rest
  | cs => pyFloatCore cs

/-- `DownstreamChannel` of src/ispee/s33.py. -/
structure DownstreamChannel where
  channel_select : ℤ
  lock_status : String
  channel_type : String
  channel_id : ℤ
  frequency_hz : ℤ
  power_dbmv : ℚ
  snr_db : ℚ
  corrected_codewords_total : ℤ
  uncorrectable_codewords_total : ℤ
deriving DecidableEq

/-- One loop iteration of `DownstreamChannel.parse_response`: unpack the
record into its 10 `"^"`-separated fields (the last being the discarded
trailing marker) and convert the numeric columns. -/
def DownstreamChannel.parseRecord (encoded_channel : String) : Option DownstreamChannel :=
  match pySplit encoded_channel "^" with
  | [channel_select, lock_status, channel_type, channel_id, frequency_hz,
     power_dbmv, snr_db, corrected_codewords_total, uncorrectable_codewords_total,
     _marker] => do
    let cs ← pyInt channel_select
    let cid ← pyInt channel_id
    let fhz ← pyInt frequency_hz
    let pw ← pyFloat power_dbmv
    let snr ← pyFloat snr_db
    let corr ← pyInt corrected_codewords_total
    let uncorr ← pyInt uncorrectable_codewords_total
    some ⟨cs, lock_status, channel_type, cid, fhz, pw, snr, corr, uncorr⟩
  | _ => Option.none

/-- Force a generator of per-record parses into a list, as `list(...)` does
at the call site: the first raised `ValueError` aborts the whole parse. -/
def forceParses {α : Type} (f : String → Option α) : List String → Option (List α)
  | [] => some []
  | rec :: rest =>
    match f rec with
    | Option.none => Option.none
    | some v =>
      match forceParses f rest with
      | Option.none => Option.none
      | some vs => some (v :: vs)

/-- `list(DownstreamChannel.parse_response(response))` as performed by
`get_channel_info`. -/
def DownstreamChannel.parse_response (response : String) : Option (List DownstreamChannel) :=
  forceParses DownstreamChannel.parseRecord (pySplit response "|+|")

/-- `UpstreamChannel` of src/ispee/s33.py (its analogous parser is not needed
by the claims under study). -/
structure UpstreamChannel where
  channel_select : ℤ
  lock_status : String
  channel_type : String
  channel_id : ℤ
  symbols_per_sec : ℤ
  frequency_hz : ℤ
  power_dbmv : ℚ
deriving DecidableEq

/-! ## Configuration loading (src/ispee/config.py)

The YAML document handed to `get_config` is modelled as a `PyValue`; the
actual YAML reading is an external collaborator and is out of scope.  Only
the Python value shapes that `yaml.safe_load` can produce for this
configuration and that the loader inspects are modelled. -/

/-- A loaded Python value, as the config loader sees it. -/
inductive PyValue where
  | str (s : String)
  | list (items : List PyValue)
  | dict (entries : List (String × PyValue))
  | pyNone

/-- Python-level errors surfaced by the config loader. -/
inductive PyErr where
  | keyError (key : String)
  | typeError
  | unboundLocalError
  | configSchemaError (msg : String)
deriving DecidableEq

/-- First-match lookup in a Python dict's entries. -/
def pyLookup : List (String × PyValue) → String → Option PyValue
  | [], _ => Option.none
  | (k, v) :: rest, key => if k = key then some v else pyLookup rest key

/-- Model of `obj[key]`: raises `KeyError` on a missing key. -/
def pySubscript (obj : PyValue) (key : String) : Except PyErr PyValue :=
  match obj with
  | PyValue.dict entries =>
    match pyLookup entries key with
    | some v => Except.ok v
    | Option.none => Except.error (PyErr.keyError key)
  | _ => Except.error PyErr.typeError

/-- Model of `obj.get(key, default)` on the top-level mapping (which is a
dict whenever the loader reaches these calls). -/
def pyGet (obj : PyValue) (key : String) (default : PyValue) : PyValue :=
  match obj with
  | PyValue.dict entries =>
    match pyLookup entries key with
    | some v => v
    | Option.none => default
  | _ => default

/-- Python truthiness of the modelled values. -/
def pyTruthy : PyValue → Bool
  | PyValue.str s => !s.isEmpty
  | PyValue.list items => !items.isEmpty
  | PyValue.dict entries => !entries.isEmpty
  | PyValue.pyNone => false

/-- Model of `key in obj` for a dict. -/
def pyContains (obj : PyValue) (key : String) : Bool :=
  match obj with
  | PyValue.dict entries => (pyLookup entries key).isSome
  | _ => false

/-- Model of iterating a Python value (`[x for x in v]`): lists yield their
items, strings their characters, dicts their keys; other values raise
`TypeError`. -/
def pyIter : PyValue → Except PyErr (List PyValue)
  | PyValue.list items => Except.ok items
  | PyValue.str s => Except.ok (s.toList.map (fun c => PyValue.str (String.singleton c)))
  | PyValue.dict entries => Except.ok (entries.map (fun kv => PyValue.str kv.1))
  | PyValue.pyNone => Except.error PyErr.typeError

/-- `PingConfig` of src/ispee/config.py.  The attrs classes perform no
runtime type validation, so the fields hold whatever objects the lookups
returned. -/
structure PingConfig where
  name : PyValue
  host : PyValue
  types : List PyValue

/-- `PingConfig.from_python_object`. -/
def PingConfig.from_python_object (obj : PyValue) : Except PyErr PingConfig := do
  let name ← pySubscript obj "name"
  let host ← pySubscript obj "host"
  let typesObj ← pySubscript obj "types"
  let types ← pyIter typesObj
  Except.ok ⟨name, host, types⟩

/-- `ArrisS33ModemConfig` of src/ispee/config.py. -/
structure ArrisS33ModemConfig where
  host : PyValue
  password : PyValue

/-- `ArrisS33ModemConfig.from_python_object`. -/
def ArrisS33ModemConfig.from_python_object (obj : PyValue) :
    Except PyErr ArrisS33ModemConfig := do
  let host ← pySubscript obj "host"
  let password ← pySubscript obj "password"
  Except.ok ⟨host, password⟩

/-- `Config` of src/ispee/config.py. -/
structure Config where
  arris_s33_modem_config : Option ArrisS33ModemConfig
  ip : Bool
  pings : List PingConfig

/-- `Config.from_python_object`. -/
def Config.from_python_object (obj : PyValue) : Except PyErr Config := do
  let arris_dict := pyGet obj "arris_s33_modem" PyValue.pyNone
  let arris_config ←
    if pyTruthy arris_dict then do
      let c ← ArrisS33ModemConfig.from_python_object arris_dict
      Except.ok (some c)
    else
      Except.ok Option.none
  let pingObjs ← pyIter (pyGet obj "pings" (PyValue.list []))
  let pings ← pingObjs.mapM PingConfig.from_python_object
  Except.ok ⟨arris_config, pyContains obj "ip", pings⟩

/-- `get_config`, after the (out-of-scope) YAML read has produced
`config_obj`.  The source's `except KeyError` handler evaluates
`ConfigSchemaError(str(key_error))` but does not raise it (there is no
`raise` keyword), so control falls through to `return config`, which reads
the local variable `config` that was never assigned in this branch and
therefore raises `UnboundLocalError`. -/
def get_config (config_obj : PyValue) : Except PyErr Config :=
  match Config.from_python_object config_obj with
  | Except.ok c => Except.ok c
  | Except.error (PyErr.keyError _) => Except.error PyErr.unboundLocalError
  | Except.error e => Except.error e

/-! ## Ping jobs (src/ispee/jobs.py)

`PingJob.measure` awaits its probe function, then updates the Prometheus
metrics.  The metrics touched by one ping job's label set are modelled as a
record; the probe call is modelled by its outcome: a duration on success, a
`PingError` (the domain error, covering timeouts and protocol errors), or
any other exception. -/

structure PingMetrics where
  ping_duration_observations : List ℚ
  ping_failure_total : ℕ
  ping_total : ℕ
deriving DecidableEq

/-- Outcome of `await self.probe_fn()`. -/
inductive PingOutcome where
  | success (duration : ℚ)
  | pingError (msg : String)
  | unexpectedError (msg : String)
deriving DecidableEq

/-- Model of `PingJob.measure`: on success the duration histogram observes;
on a `PingError` the failure counter increments; in both cases the function
then increments the total counter and returns.  Any other exception
propagates out of `measure` before the total counter statement runs. -/
def PingJob.measure (m : PingMetrics) (outcome : PingOutcome) :
    PingMetrics × Except String Unit :=
  match outcome with
  | PingOutcome.success d =>
    ({ m with
        ping_duration_observations := m.ping_duration_observations ++ [d],
        ping_total := m.ping_total + 1 },
      Except.ok ())
  | PingOutcome.pingError _ =>
    ({ m with
        ping_failure_total := m.ping_failure_total + 1,
        ping_total := m.ping_total + 1 },
      Except.ok ())
  | PingOutcome.unexpectedError e => (m, Except.error e)

/-- Model of one iteration of `MetricJob.loop`: it calls `measure` and, when
an unhandled exception escapes, logs it and continues with the metrics as
they stand. -/
def MetricJob.loopStep (m : PingMetrics) (outcome : PingOutcome) : PingMetrics :=
  (PingJob.measure m outcome).1

/-! ## Modem session login flow (src/ispee/s33.py, `S33Scraper`)

The two HTTP round trips of the login flow are modelled by what the server
sent back: the first ("request" action) response carries a status code and,
on success, the `PublicKey`/`Cookie`/`Challenge` fields of its JSON body; the
second ("login" action) response carries a status code and the `LoginResult`
field.  `_arris_hmac` (HMAC-MD5, hex, uppercase) is a pure cryptographic
primitive whose digest values none of the claims depend on; it is modelled
as an abstract function parameter `hmacFn key msg`. -/

/-- `_LoginChallengeParameters` of src/ispee/s33.py. -/
structure LoginChallengeParameters where
  public_key : String
  uid : String
  challenge_msg : String
deriving DecidableEq

/-- Server behaviour on the first ("request" action) login POST. -/
structure ChallengeHttpResponse where
  status_code : ℕ
  public_key : String
  cookie : String
  challenge : String
deriving DecidableEq

/-- Server behaviour on the second ("login" action) POST. -/
structure LoginHttpResponse where
  status_code : ℕ
  login_result : String
deriving DecidableEq

/-- `ModemScrapeError` of src/ispee/exception.py. -/
structure ModemScrapeError where
  msg : String
deriving DecidableEq

/-- `S33Scraper` of src/ispee/s33.py; `auth_uid_private_key` models the
`_auth_uid_private_key` field, `none` when unauthenticated. -/
structure S33Scraper where
  host : String
  password : String
  username : String
  auth_uid_private_key : Option (String × String)
deriving DecidableEq

/-- `S33Scraper._request_login_challenge`, given the server's response to the
"request" action POST. -/
def S33Scraper.request_login_challenge (r : ChallengeHttpResponse) :
    Except ModemScrapeError LoginChallengeParameters :=
  if r.status_code ≠ 200 then
    Except.error ⟨"Got " ++ toString r.status_code
      ++ " status code when making 1st login request"⟩
  else
    Except.ok ⟨r.public_key, r.cookie, r.challenge⟩

/-- `S33Scraper._submit_hmac_challenge`, given the server's response to the
"login" action POST.  (The HMAC-ed `LoginPassword` sent in the request body
is consumed only by the server, whose reaction `r` already models.) -/
def S33Scraper.submit_hmac_challenge (s : S33Scraper) (r : LoginHttpResponse) :
    Except ModemScrapeError Unit :=
  match s.auth_uid_private_key with
  | Option.none =>
    Except.error ⟨"Cannot do second part of login flow before first part."⟩
  | some _ =>
    if r.status_code ≠ 200 then
      Except.error ⟨"Got " ++ toString r.status_code
        ++ " status code when making 2nd login request"⟩
    else if r.login_result ≠ "OK" then
      Except.error ⟨"Got " ++ r.login_result ++ " login result (expecting OK)"⟩
    else
      Except.ok ()

/-- `S33Scraper._login`: runs the first step, computes
`private_key = hmac(public_key + password, challenge_msg)`, stores the
`(uid, private_key)` pair on the session, and only then submits the second
step.  Returns the session as left by the flow together with its
success/error result. -/
def S33Scraper.login (hmacFn : String → String → String) (s : S33Scraper)
    (challengeResp : ChallengeHttpResponse) (loginResp : LoginHttpResponse) :
    S33Scraper × Except ModemScrapeError Unit :=
  match S33Scraper.request_login_challenge challengeResp with
  | Except.error e => (s, Except.error e)
  | Except.ok challenge_params =>
    let private_key :=
      hmacFn (challenge_params.public_key ++ s.password) challenge_params.challenge_msg
    let s2 := { s with
      auth_uid_private_key := some (challenge_params.uid, private_key) }
    (s2, s2.submit_hmac_challenge loginResp)

/-! ## Modem scrape job metrics (src/ispee/jobs.py, `S33ScrapeJob.measure`)

`measure` destructures the pair returned by `get_channel_info` as
`downstream_channels, _`, then for each downstream channel sets the four
gauges labelled with the scraper's host and the channel frequency in MHz.
The gauge updates are modelled as an ordered list of set events. -/

/-- The four gauges `S33ScrapeJob` declares. -/
inductive GaugeKind where
  | power
  | snr
  | corrected
  | uncorrectable
deriving DecidableEq

/-- One `Gauge.labels(**labels).set(value)` call. -/
structure MetricSetEvent where
  gauge : GaugeKind
  host : String
  frequency_megahertz : String
  value : ℚ
deriving DecidableEq

/-- The four gauge updates the loop body of `S33ScrapeJob.measure` performs
for one downstream channel (`frequency_hz // 10**6` is Python floor
division). -/
def channelMetricSets (host : String) (chan : DownstreamChannel) : List MetricSetEvent :=
  let freq := toString (Int.fdiv chan.frequency_hz (10 ^ 6))
  [ ⟨GaugeKind.power, host, freq, chan.power_dbmv⟩,
    ⟨GaugeKind.snr, host, freq, chan.snr_db⟩,
    ⟨GaugeKind.corrected, host, freq, (chan.corrected_codewords_total : ℚ)⟩,
    ⟨GaugeKind.uncorrectable, host, freq, (chan.uncorrectable_codewords_total : ℚ)⟩ ]

/-- Model of `S33ScrapeJob.measure`, given the scraper's host and the channel
info pair the scrape returned: the gauge set events it performs, in order. -/
def S33ScrapeJob.measureSets (host : String)
    (channel_info : List DownstreamChannel × List UpstreamChannel) :
    List MetricSetEvent :=
  match channel_info with
  | (downstream_channels, _) => downstream_channels.flatMap (channelMetricSets host)

/-! ## Concrete instances used by the claims -/

/-- A malformed configuration document: a `pings` entry that has a `name`
but is missing the required `host` (and `types`) keys. -/
def c3BadConfig : PyValue :=
  PyValue.dict [("pings", PyValue.list [PyValue.dict [("name", PyValue.str "x")]])]

/-- The downstream-channel response string fixed by the specification's
parser test vector. -/
def sampleDownstreamResponse : String :=
  "1^locked^QAM256^5^600000000^5.5^40.2^10^0^x|+|2^locked^QAM256^6^606000000^5.6^40.1^12^1^x"

/-- A concrete downstream channel (the first record of
`sampleDownstreamResponse`). -/
def c10Chan : DownstreamChannel :=
  ⟨1, "locked", "QAM256", 5, 600000000, 11 / 2, 201 / 5, 10, 0⟩

/-- A concrete upstream channel. -/
def c10Up : UpstreamChannel :=
  ⟨1, "locked", "SC-QAM", 1, 5120, 30000000, 42⟩

/-! ## Claims -/

/-- Helper for C1: folding successful scopes subtracts each measured
duration, provided the budget is still positive at each scope entry. -/
theorem runScopes_seconds_left (durations : List ℚ) :
    ∀ b : ℚ, (∀ k, k < durations.length → (durations.take k).sum < b) →
      (runScopes ⟨b⟩ durations).seconds_left = b - durations.sum := by
  induction durations with
  | nil =>
    intro b _
    simp [runScopes]
  | cons t rest ih =>
    intro b h
    have hb : 0 < b := by simpa using h 0 (by simp)
    have hstep : ((⟨b⟩ : SocketTimeoutPool).limit t ScopeOutcome.ok).1 = ⟨b - t⟩ := by
      simp [SocketTimeoutPool.limit, not_le.mpr hb]
    have hrest : ∀ k, k < rest.length → (rest.take k).sum < b - t := by
      intro k hk
      have h2 := h (k + 1) (by simpa using Nat.succ_lt_succ hk)
      rw [List.take_succ_cons, List.sum_cons] at h2
      linarith
    have htail := ih (b - t) hrest
    unfold runScopes at htail ⊢
    simp only [List.foldl_cons]
    rw [hstep, htail, List.sum_cons]
    ring

/-- C1, amended: for every initial budget `b > 0` and every sequence of
scopes that all complete normally with measured durations `t_1, ..., t_n`,
each entered while the remaining budget is still positive, the budget after
the `n` scopes equals `b - Σ t_i`.  (The original claim's "regardless of
whether the wrapped operation succeeded or raised" fails: the subtraction is
skipped when the scope body raises — see the counterexample.) -/
theorem c1_budget_after_successful_scopes (b : ℚ) (durations : List ℚ)
    (_hb : 0 < b)
    (hfit : ∀ k, k < durations.length → (durations.take k).sum < b) :
    (runScopes ⟨b⟩ durations).seconds_left = b - durations.sum :=
  runScopes_seconds_left durations b hfit

/-- Witness for C1 at `b = 5` and durations `[1, 2]`. -/
theorem c1_budget_witness :
    (runScopes ⟨5⟩ [1, 2]).seconds_left = 5 - ([1, 2] : List ℚ).sum :=
  c1_budget_after_successful_scopes 5 [1, 2] (by norm_num)
    (by
      intro k hk
      have hk2 : k < 2 := by simpa using hk
      interval_cases k <;> norm_num)

/-- C1 counterexample: with initial budget 5, a single scope whose wrapped
operation spends a measured duration of 1 and then raises (here the
socket's `TimeoutError`) leaves `seconds_left` at 5, not at `5 - 1` as the
claim's "subtracted ... regardless of whether the wrapped operation
succeeded or raised an exception" requires. -/
theorem c1_counterexample :
    ((⟨5⟩ : SocketTimeoutPool).limit 1 ScopeOutcome.timeoutError).1.seconds_left = 5
    ∧ (5 : ℚ) ≠ 5 - 1 := by
  constructor
  · rfl
  · norm_num

/-- C8: acquiring a `limit` scope with `seconds_left ≤ 0` fails with the
timeout-kind error (`ProbeTimeout`), leaves the pool unchanged, and performs
no socket effect at all — in particular no `settimeout` call and no network
operation. -/
theorem c8_exhausted_budget_fails_fast (pool : SocketTimeoutPool) (duration : ℚ)
    (outcome : ScopeOutcome) (h : pool.seconds_left ≤ 0) :
    pool.limit duration outcome =
      (pool, LimitResult.probeTimeout, ([] : List SocketEvent)) := by
  unfold SocketTimeoutPool.limit
  rw [if_pos h]

/-- Witness for C8 at an exhausted pool. -/
theorem c8_witness :
    (⟨0⟩ : SocketTimeoutPool).limit 3 ScopeOutcome.ok =
      ((⟨0⟩ : SocketTimeoutPool), LimitResult.probeTimeout, ([] : List SocketEvent)) :=
  c8_exhausted_budget_fails_fast ⟨0⟩ 3 ScopeOutcome.ok (le_refl 0)

/-- Helper for C5: a reply whose `(id, seq)` does not match the request is
discarded by the loop body. -/
theorem icmpProcessReply_discard_of_mismatch (i q : ℕ) (t : ℚ) (r : ICMPReply)
    (h : r.id ≠ i ∨ r.seq ≠ q) : icmpProcessReply i q t r = ICMPStep.discard := by
  unfold icmpProcessReply
  by_cases hp : r.proto ≠ IPPROTO_ICMP
  · rw [if_pos hp]
  · rw [if_neg hp, if_pos h]

/-- Helper for C5: the receive loop keeps waiting past a mismatching reply. -/
theorem icmpRecvLoop_skips_mismatch (i q : ℕ) (t : ℚ) (r : ICMPReply)
    (rest : List (ℚ × ICMPReply)) (h : r.id ≠ i ∨ r.seq ≠ q) :
    icmpRecvLoop i q ((t, r) :: rest) = icmpRecvLoop i q rest := by
  simp [icmpRecvLoop, icmpProcessReply_discard_of_mismatch i q t r h]

/-- Helper for C5: a matching echo reply with `type = 0` and `code = 0`
returns the receive time minus the timestamp embedded in the payload. -/
theorem icmpProcessReply_matching_success (i q : ℕ) (t : ℚ) (r : ICMPReply)
    (hp : r.proto = IPPROTO_ICMP) (hid : r.id = i) (hs : r.seq = q)
    (ht : r.type = 0) (hc : r.code = 0) :
    icmpProcessReply i q t r = ICMPStep.success (t - r.payload) := by
  unfold icmpProcessReply
  rw [if_neg (by simp [hp]), if_neg (by simp [hid, hs]), if_pos ⟨ht, hc⟩]

/-- C5: every ICMP reply whose `(id, seq)` differ from the request's
`(identifier, sequence_number)` is discarded, the receive loop keeps waiting
past it, and a matching reply with `type = 0` and `code = 0` makes the probe
return exactly the reply receive time minus the send timestamp embedded in
the reply's payload. -/
theorem c5_icmp_match_and_duration :
    (∀ (i q : ℕ) (t : ℚ) (r : ICMPReply),
      r.id ≠ i ∨ r.seq ≠ q → icmpProcessReply i q t r = ICMPStep.discard)
    ∧ (∀ (i q : ℕ) (t : ℚ) (r : ICMPReply) (rest : List (ℚ × ICMPReply)),
      r.id ≠ i ∨ r.seq ≠ q →
        icmpRecvLoop i q ((t, r) :: rest) = icmpRecvLoop i q rest)
    ∧ (∀ (i q : ℕ) (t : ℚ) (r : ICMPReply),
      r.proto = IPPROTO_ICMP → r.id = i → r.seq = q → r.type = 0 → r.code = 0 →
        icmpProcessReply i q t r = ICMPStep.success (t - r.payload)) :=
  ⟨icmpProcessReply_discard_of_mismatch, icmpRecvLoop_skips_mismatch,
    icmpProcessReply_matching_success⟩

/-- Witness for C5 at concrete replies: a matching echo reply received at
time 10 with embedded send time 3 yields duration `10 - 3`; a reply with the
wrong identifier is discarded, and a trace holding only that reply leaves
the loop still waiting. -/
theorem c5_witness :
    icmpProcessReply 1 2 10 ⟨IPPROTO_ICMP, 0, 0, 1, 2, 3⟩ = ICMPStep.success (10 - 3)
    ∧ icmpProcessReply 1 2 10 ⟨IPPROTO_ICMP, 0, 0, 7, 2, 3⟩ = ICMPStep.discard
    ∧ icmpRecvLoop 1 2 [(10, ⟨IPPROTO_ICMP, 0, 0, 7, 2, 3⟩)] = ICMPLoopResult.timeout :=
  ⟨c5_icmp_match_and_duration.2.2 1 2 10 ⟨IPPROTO_ICMP, 0, 0, 1, 2, 3⟩
      rfl rfl rfl rfl rfl,
    c5_icmp_match_and_duration.1 1 2 10 ⟨IPPROTO_ICMP, 0, 0, 7, 2, 3⟩
      (Or.inl (by decide)),
    c5_icmp_match_and_duration.2.1 1 2 10 ⟨IPPROTO_ICMP, 0, 0, 7, 2, 3⟩ []
      (Or.inl (by decide))⟩

/-- C2, amended: the TCP receive loop discards a reply exactly when its
protocol is not TCP, or its source is not the probed host, or its `seq` and
its `ack` BOTH miss the expected values — where the code's expected values
are `exp_seq = acknowledgment_number` and
`exp_ack = (sequence_number + 1) mod 2^32`.  A reply from the host matching
at least one of the two expected values is processed and can make the probe
return a duration or fail with a TCP protocol error.  (The original claim
requires both fields to match — and with the two expectations the other way
around; see the counterexample.) -/
theorem c2_tcp_reply_filter (host : String) (s a : ℕ) (tx rx : ℚ) (r : TCPReply) :
    tcpProcessReply host s a tx rx r = TCPStep.discard ↔
      (r.proto ≠ IPPROTO_TCP ∨ r.src ≠ host
        ∨ (r.seq ≠ a ∧ r.ack ≠ (s + 1) % 2 ^ 32)) := by
  simp only [tcpProcessReply]
  split_ifs with h1 h2 h3 h4 <;> simp_all

/-- C2 counterexample: probe sent with `sequence_number = 5`,
`acknowledgment_number = 10`; a reply from the host whose `seq = 10` and
`ack = 99` matches NEITHER of the claim's expected post-handshake values
(`expected_seq = (5 + 1) mod 2^32 = 6`, `expected_ack = 10`), so by the
claim it must be discarded — yet the code accepts it and returns a success
duration, because the source keeps any reply with `seq = acknowledgment_number`
or `ack = (sequence_number + 1) mod 2^32` and this reply satisfies the
former. -/
theorem c2_counterexample :
    tcpProcessReply "h" 5 10 0 3 ⟨IPPROTO_TCP, "h", 10, 99, "SA"⟩ =
      TCPStep.success (3 - 0)
    ∧ (10 : ℕ) ≠ (5 + 1) % 2 ^ 32 ∧ (99 : ℕ) ≠ 10 :=
  ⟨rfl, by decide, by decide⟩

/-- C9: a reply from the probed host whose `ack` equals
`(sequence_number + 1) mod 2^32` and whose `seq` equals
`acknowledgment_number` but whose flags are not SYN+ACK makes the probe fail
with a TCP protocol error whose message reports the observed flags. -/
theorem c9_tcp_wrong_flags_error (host : String) (s a : ℕ) (tx rx : ℚ)
    (r : TCPReply) (hp : r.proto = IPPROTO_TCP) (hs : r.src = host)
    (_hack : r.ack = (s + 1) % 2 ^ 32) (hseq : r.seq = a) (hf : r.flags ≠ "SA") :
    tcpProcessReply host s a tx rx r =
      TCPStep.tcpError
        ("host did not respond with correct flags (expected: SYN-ACK, actual: "
          ++ r.flags ++ ")") := by
  simp only [tcpProcessReply]
  rw [if_neg (by simp [hp]), if_neg (by simp [hs]), if_neg (by simp [hseq]),
    if_neg hf]

/-- Witness for C9: a matching RST reply fails with the error message
reporting flags `R`. -/
theorem c9_witness :
    tcpProcessReply "h" 5 10 0 1 ⟨IPPROTO_TCP, "h", 10, 6, "R"⟩ =
      TCPStep.tcpError
        ("host did not respond with correct flags (expected: SYN-ACK, actual: "
          ++ "R" ++ ")") :=
  c9_tcp_wrong_flags_error "h" 5 10 0 1 ⟨IPPROTO_TCP, "h", 10, 6, "R"⟩
    rfl rfl (by decide) rfl (by decide)

/-- C3 (code bug): loading a configuration with a ping entry missing a
required key does NOT raise `ConfigSchemaError`.  The `except KeyError`
handler in `get_config` evaluates `ConfigSchemaError(str(key_error))` but
lacks the `raise` keyword, so the function instead fails with
`UnboundLocalError` at the following `return config`.  (The process still
dies before any job is scheduled, but not with the schema error the claim
and the spec describe.) -/
theorem c3_missing_key_not_schema_error :
    get_config c3BadConfig = Except.error PyErr.unboundLocalError
    ∧ ∀ msg, get_config c3BadConfig ≠ Except.error (PyErr.configSchemaError msg) := by
  refine ⟨rfl, ?_⟩
  intro msg h
  have h2 : Except.error (α := Config) PyErr.unboundLocalError
      = Except.error (PyErr.configSchemaError msg) :=
    (rfl : get_config c3BadConfig
      = Except.error PyErr.unboundLocalError).symm.trans h
  injection h2 with h3
  exact PyErr.noConfusion h3

/-- C4 counterexample: when the probe raises an unexpected (non-`PingError`)
exception, `PingJob.measure` propagates it before reaching the
`PING_COUNTER.labels(...).inc()` statement, so the per-cycle total counter
is NOT incremented — against the claim's "incremented exactly once,
unconditionally ... whether the probe succeeds, fails with a domain error,
or fails with an unexpected error". -/
theorem c4_counterexample :
    (PingJob.measure ⟨[], 0, 0⟩ (PingOutcome.unexpectedError "boom")).1.ping_total = 0
    ∧ (PingJob.measure ⟨[], 0, 0⟩ (PingOutcome.unexpectedError "boom")).2 =
        Except.error "boom" :=
  ⟨rfl, rfl⟩

/-- C4, amended: on success the duration histogram observes and the total
counter increments; on a domain (`PingError`) failure the failure counter
and the total counter increment and nothing propagates; on an unexpected
error the metrics are untouched and the error propagates out of `measure`,
where the job loop logs it and continues with the metrics unchanged. -/
theorem c4_measure_counters (m : PingMetrics) (d : ℚ) (e u : String) :
    (PingJob.measure m (PingOutcome.success d)).1.ping_total = m.ping_total + 1
    ∧ (PingJob.measure m (PingOutcome.success d)).1.ping_duration_observations =
        m.ping_duration_observations ++ [d]
    ∧ (PingJob.measure m (PingOutcome.success d)).1.ping_failure_total =
        m.ping_failure_total
    ∧ (PingJob.measure m (PingOutcome.success d)).2 = Except.ok ()
    ∧ (PingJob.measure m (PingOutcome.pingError e)).1.ping_total = m.ping_total + 1
    ∧ (PingJob.measure m (PingOutcome.pingError e)).1.ping_failure_total =
        m.ping_failure_total + 1
    ∧ (PingJob.measure m (PingOutcome.pingError e)).1.ping_duration_observations =
        m.ping_duration_observations
    ∧ (PingJob.measure m (PingOutcome.pingError e)).2 = Except.ok ()
    ∧ PingJob.measure m (PingOutcome.unexpectedError u) = (m, Except.error u)
    ∧ MetricJob.loopStep m (PingOutcome.unexpectedError u) = m :=
  ⟨rfl, rfl, rfl, rfl, rfl, rfl, rfl, rfl, rfl, rfl⟩

/-- C7: when the first login step succeeds (HTTP 200) but the second step is
rejected — non-OK HTTP status or a login result other than `"OK"` — the
login flow returns a `ModemScrapeError`, yet the session keeps the
`(uid, private_key)` pair stored before the second step: it is left
authenticated with credentials the server rejected. -/
theorem c7_login_failure_keeps_credentials
    (hmacFn : String → String → String) (s : S33Scraper)
    (cr : ChallengeHttpResponse) (lr : LoginHttpResponse)
    (h1 : cr.status_code = 200)
    (h2 : lr.status_code ≠ 200 ∨ lr.login_result ≠ "OK") :
    (∃ e, (S33Scraper.login hmacFn s cr lr).2 = Except.error e)
    ∧ (S33Scraper.login hmacFn s cr lr).1.auth_uid_private_key =
        some (cr.cookie, hmacFn (cr.public_key ++ s.password) cr.challenge) := by
  have hch : S33Scraper.request_login_challenge cr =
      Except.ok ⟨cr.public_key, cr.cookie, cr.challenge⟩ := by
    unfold S33Scraper.request_login_challenge
    rw [if_neg (by simp [h1])]
  simp only [S33Scraper.login, hch]
  refine ⟨?_, by trivial⟩
  by_cases hs2 : lr.status_code ≠ 200
  · exact ⟨⟨"Got " ++ toString lr.status_code
        ++ " status code when making 2nd login request"⟩,
      by simp [S33Scraper.submit_hmac_challenge, hs2]⟩
  · have hres : lr.login_result ≠ "OK" := h2.resolve_left (by simpa using hs2)
    exact ⟨⟨"Got " ++ lr.login_result ++ " login result (expecting OK)"⟩,
      by simp [S33Scraper.submit_hmac_challenge, hs2, hres]⟩

/-- Witness for C7: a server that grants the challenge but answers the
second step with `LoginResult = "FAILED"`; the flow errors while the
session retains the freshly computed pair. -/
theorem c7_witness :
    (∃ e, (S33Scraper.login (fun k m => k ++ "#" ++ m)
        ⟨"modem", "pw", "admin", Option.none⟩ ⟨200, "PUB", "UID", "CHAL"⟩
        ⟨200, "FAILED"⟩).2 = Except.error e)
    ∧ (S33Scraper.login (fun k m => k ++ "#" ++ m)
        ⟨"modem", "pw", "admin", Option.none⟩ ⟨200, "PUB", "UID", "CHAL"⟩
        ⟨200, "FAILED"⟩).1.auth_uid_private_key =
          some ("UID", "PUBpw" ++ "#" ++ "CHAL") :=
  c7_login_failure_keeps_credentials (fun k m => k ++ "#" ++ m)
    ⟨"modem", "pw", "admin", Option.none⟩ ⟨200, "PUB", "UID", "CHAL"⟩
    ⟨200, "FAILED"⟩ rfl (Or.inr (by decide))

/-- C10: the modem-scrape job's gauge updates are computed from the
downstream channels alone — the upstream list is discarded (replacing it
changes nothing), every downstream channel contributes its four gauge set
events (power, SNR, corrected and uncorrectable codewords), and every
emitted event is one of some downstream channel's four. -/
theorem c10_downstream_only_metrics :
    (∀ (host : String) (ds : List DownstreamChannel) (us us2 : List UpstreamChannel),
      S33ScrapeJob.measureSets host (ds, us) = S33ScrapeJob.measureSets host (ds, us2))
    ∧ (∀ (host : String) (ds : List DownstreamChannel) (us : List UpstreamChannel)
        (chan : DownstreamChannel), chan ∈ ds →
      ∀ e ∈ channelMetricSets host chan, e ∈ S33ScrapeJob.measureSets host (ds, us))
    ∧ (∀ (host : String) (ds : List DownstreamChannel) (us : List UpstreamChannel)
        (e : MetricSetEvent), e ∈ S33ScrapeJob.measureSets host (ds, us) →
      ∃ chan, chan ∈ ds ∧ e ∈ channelMetricSets host chan) := by
  refine ⟨fun host ds us us2 => rfl, ?_, ?_⟩
  · intro host ds us chan hchan e he
    exact List.mem_flatMap.mpr ⟨chan, hchan, he⟩
  · intro host ds us e he
    rcases List.mem_flatMap.mp he with ⟨chan, hchan, he2⟩
    exact ⟨chan, hchan, he2⟩

/-- Witness for C10 at a one-channel scrape: swapping the upstream list is
invisible, and the power gauge event of the channel is among the emitted
events and traces back to that channel. -/
theorem c10_witness :
    S33ScrapeJob.measureSets "modem" ([c10Chan], []) =
      S33ScrapeJob.measureSets "modem" ([c10Chan], [c10Up])
    ∧ (⟨GaugeKind.power, "modem",
          toString (Int.fdiv (600000000 : ℤ) (10 ^ 6)), 11 / 2⟩ : MetricSetEvent)
        ∈ S33ScrapeJob.measureSets "modem" ([c10Chan], [])
    ∧ ∃ chan, chan ∈ [c10Chan] ∧
        (⟨GaugeKind.power, "modem",
            toString (Int.fdiv (600000000 : ℤ) (10 ^ 6)), 11 / 2⟩ : MetricSetEvent)
          ∈ channelMetricSets "modem" chan :=
  ⟨c10_downstream_only_metrics.1 "modem" [c10Chan] [] [c10Up],
    c10_downstream_only_metrics.2.1 "modem" [c10Chan] [] c10Chan
      (List.mem_singleton.mpr rfl) _ (List.mem_cons_self _ _),
    c10_downstream_only_metrics.2.2 "modem" [c10Chan] [] _
      (c10_downstream_only_metrics.2.1 "modem" [c10Chan] [] c10Chan
        (List.mem_singleton.mpr rfl) _ (List.mem_cons_self _ _))⟩

/-- Helper for C6: if any record of the forced generator fails, the whole
parse yields nothing — no prefix of results survives. -/
theorem forceParses_eq_none_of_mem {α : Type} (f : String → Option α) :
    ∀ (l : List String) (r : String), r ∈ l → f r = Option.none →
      forceParses f l = Option.none := by
  intro l
  induction l with
  | nil =>
    intro r h _
    cases h
  | cons b t ih =>
    intro r h hf
    rcases List.mem_cons.mp h with h | h
    · subst h
      simp [forceParses, hf]
    · cases hb : f b with
      | none => simp [forceParses, hb]
      | some v => simp [forceParses, hb, ih r h hf]

/-- Helper for C6: a record that does not split into exactly 10 fields
(9 data fields plus the trailing marker) fails the tuple unpacking. -/
theorem parseRecord_none_of_bad_arity (r : String)
    (h : (pySplit r "^").length ≠ 10) :
    DownstreamChannel.parseRecord r = Option.none := by
  unfold DownstreamChannel.parseRecord
  split
  · rename_i f0 f1 f2 f3 f4 f5 f6 f7 f8 f9 heq
    exact absurd (by rw [heq]; rfl) h
  · rfl

/-- Helper for C6: a record with the right field count but a non-numeric
value in any numeric column fails the conversion. -/
theorem parseRecord_none_of_bad_field (r : String)
    (f0 f1 f2 f3 f4 f5 f6 f7 f8 f9 : String)
    (hsp : pySplit r "^" = [f0, f1, f2, f3, f4, f5, f6, f7, f8, f9])
    (hbad : pyInt f0 = Option.none ∨ pyInt f3 = Option.none
      ∨ pyInt f4 = Option.none ∨ pyFloat f5 = Option.none
      ∨ pyFloat f6 = Option.none ∨ pyInt f7 = Option.none
      ∨ pyInt f8 = Option.none) :
    DownstreamChannel.parseRecord r = Option.none := by
  unfold DownstreamChannel.parseRecord
  rw [hsp]
  rcases hbad with h | h | h | h | h | h | h
  · simp [h]
  · cases h0 : pyInt f0 <;> simp [h0, h]
  · cases h0 : pyInt f0 <;> cases h1 : pyInt f3 <;> simp [h0, h1, h]
  · cases h0 : pyInt f0 <;> cases h1 : pyInt f3 <;> cases h2 : pyInt f4 <;>
      simp [h0, h1, h2, h]
  · cases h0 : pyInt f0 <;> cases h1 : pyInt f3 <;> cases h2 : pyInt f4 <;>
      cases h3 : pyFloat f5 <;> simp [h0, h1, h2, h3, h]
  · cases h0 : pyInt f0 <;> cases h1 : pyInt f3 <;> cases h2 : pyInt f4 <;>
      cases h3 : pyFloat f5 <;> cases h4 : pyFloat f6 <;>
      simp [h0, h1, h2, h3, h4, h]
  · cases h0 : pyInt f0 <;> cases h1 : pyInt f3 <;> cases h2 : pyInt f4 <;>
      cases h3 : pyFloat f5 <;> cases h4 : pyFloat f6 <;> cases h5 : pyInt f7 <;>
      simp [h0, h1, h2, h3, h4, h5, h]

/-- C6: the specification's test vector parses to exactly the two downstream
records with the stated frequency, power and SNR values; a record failing
anywhere in a response — wrong field count or a non-numeric value in a
numeric column — makes the whole parse fail with no partial list. -/
theorem c6_parser_roundtrip :
    DownstreamChannel.parse_response sampleDownstreamResponse =
      some [⟨1, "locked", "QAM256", 5, 600000000, 11 / 2, 201 / 5, 10, 0⟩,
        ⟨2, "locked", "QAM256", 6, 606000000, 28 / 5, 401 / 10, 12, 1⟩]
    ∧ (∀ (response r : String), r ∈ pySplit response "|+|" →
        DownstreamChannel.parseRecord r = Option.none →
        DownstreamChannel.parse_response response = Option.none)
    ∧ (∀ r : String, (pySplit r "^").length ≠ 10 →
        DownstreamChannel.parseRecord r = Option.none)
    ∧ (∀ (r f0 f1 f2 f3 f4 f5 f6 f7 f8 f9 : String),
        pySplit r "^" = [f0, f1, f2, f3, f4, f5, f6, f7, f8, f9] →
        (pyInt f0 = Option.none ∨ pyInt f3 = Option.none
          ∨ pyInt f4 = Option.none ∨ pyFloat f5 = Option.none
          ∨ pyFloat f6 = Option.none ∨ pyInt f7 = Option.none
          ∨ pyInt f8 = Option.none) →
        DownstreamChannel.parseRecord r = Option.none) := by
  refine ⟨?_, ?_, parseRecord_none_of_bad_arity, parseRecord_none_of_bad_field⟩
  · have d5 : digitsVal ['5'] = 5 := rfl
    have d6 : digitsVal ['6'] = 6 := rfl
    have d2 : digitsVal ['2'] = 2 := rfl
    have d1 : digitsVal ['1'] = 1 := rfl
    have d40 : digitsVal ['4', '0'] = 40 := rfl
    have e1 : decimalVal ['5'] ['5'] = 11 / 2 := by
      unfold decimalVal
      rw [d5]
      norm_num
    have e2 : decimalVal ['4', '0'] ['2'] = 201 / 5 := by
      unfold decimalVal
      rw [d40, d2]
      norm_num
    have e3 : decimalVal ['5'] ['6'] = 28 / 5 := by
      unfold decimalVal
      rw [d5, d6]
      norm_num
    have e4 : decimalVal ['4', '0'] ['1'] = 401 / 10 := by
      unfold decimalVal
      rw [d40, d1]
      norm_num
    have hval : DownstreamChannel.parse_response sampleDownstreamResponse =
        some [⟨1, "locked", "QAM256", 5, 600000000, decimalVal ['5'] ['5'],
            decimalVal ['4', '0'] ['2'], 10, 0⟩,
          ⟨2, "locked", "QAM256", 6, 606000000, decimalVal ['5'] ['6'],
            decimalVal ['4', '0'] ['1'], 12, 1⟩] := rfl
    rw [e1, e2, e3, e4] at hval
    exact hval
  · intro response r hmem hnone
    exact forceParses_eq_none_of_mem DownstreamChannel.parseRecord
      (pySplit response "|+|") r hmem hnone

/-- Witness for C6: a response whose second record is garbage parses to
nothing (no partial single-record list); a 2-field record and a record with
a non-numeric channel-select both fail on their own. -/
theorem c6_witness :
    DownstreamChannel.parse_response
        "1^locked^QAM256^5^600000000^5.5^40.2^10^0^x|+|junk" = Option.none
    ∧ DownstreamChannel.parseRecord "a^b" = Option.none
    ∧ DownstreamChannel.parseRecord
        "a^locked^QAM256^5^600000000^5.5^40.2^10^0^x" = Option.none :=
  ⟨c6_parser_roundtrip.2.1 "1^locked^QAM256^5^600000000^5.5^40.2^10^0^x|+|junk"
      "junk" (by decide) (c6_parser_roundtrip.2.2.1 "junk" (by decide)),
    c6_parser_roundtrip.2.2.1 "a^b" (by decide),
    c6_parser_roundtrip.2.2.2 "a^locked^QAM256^5^600000000^5.5^40.2^10^0^x"
      "a" "locked" "QAM256" "5" "600000000" "5.5" "40.2" "10" "0" "x"
      (by decide) (Or.inl (by decide))⟩
